import Mathlib

/-!
Verification development for the pi-hil-testing-utils relay-control scripts
(`arduino_daemon.py`, `arduino_relay_control.py`).

Modelling conventions:
* A device reply stream is a `List String` of the already `.strip()`-ed
  results of successive `readline()` calls; an exhausted list models the
  port returning only empty (timed-out) reads, and an explicit `""`
  element models a timed-out or blank read arriving mid-stream.
* Python exceptions are modelled by `Except`/explicit error constructors;
  Python dict results are modelled by dedicated inductive types.
* Python's truthiness of `response and "ERR" not in response` is kept by
  representing the JSON value put into the `success` field (`JVal`), since
  the expression yields the empty string rather than a bool when the
  response is empty.
-/

namespace RelayUtils

/-- Substring test on character lists: `hasInfix hay needle` is true iff
`needle` occurs contiguously inside `hay` (Python's `needle in hay`). -/
def hasInfix : List Char → List Char → Bool
  | [], needle => needle.isEmpty
  | c :: t, needle => needle.isPrefixOf (c :: t) || hasInfix t needle

/-- Python's `sub in s` on strings. -/
def strContains (s sub : String) : Bool :=
  hasInfix s.toList sub.toList

/-- Digits-only numeral value; `none` when empty or a non-digit occurs. -/
def digitsToNat : List Char → Option Nat
  | [] => none
  | l =>
    if l.all Char.isDigit then
      some (l.foldl (fun a c => a * 10 + (c.toNat - 48)) 0)
    else none

/-- Python `int(s)` on a whitespace-free token: optional sign then digits
(`ValueError` becomes `none`). -/
def pyInt : String → Option Int
  | s =>
    match s.toList with
    | '-' :: rest => (digitsToNat rest).map (fun n => -(n : Int))
    | '+' :: rest => (digitsToNat rest).map (fun n => (n : Int))
    | l => (digitsToNat l).map (fun n => (n : Int))

/-- Split a character list at every occurrence of `sep`, keeping empty
pieces (the behaviour of Python's `s.split(sep)` for a one-character
separator). -/
def splitOnChar (sep : Char) : List Char → List (List Char)
  | [] => [[]]
  | c :: t =>
    if c = sep then [] :: splitOnChar sep t
    else
      match splitOnChar sep t with
      | [] => [[c]]
      | p :: ps => (c :: p) :: ps

/-- Python `s.split()` restricted to the space-separated strings that occur
here: split on `' '` and drop empty pieces. -/
def pySplitWs (s : String) : List String :=
  ((splitOnChar ' ' s.toList).map String.mk).filter (fun p => p ≠ "")

/-- Python `s.startswith(pre)`. -/
def pyStartsWith (s pre : String) : Bool :=
  pre.toList.isPrefixOf s.toList

/-- Python `s.upper()` on the ASCII strings occurring here. -/
def pyUpper (s : String) : String :=
  String.mk (s.toList.map Char.toUpper)

/-- Python `s.split(':', 1)`: characters before the first colon and the
characters after it; `none` when no colon occurs (`':' in tok` false). -/
def splitFirstColon : List Char → Option (List Char × List Char)
  | [] => none
  | c :: t =>
    if c = ':' then some ([], t)
    else (splitFirstColon t).map (fun p => (c :: p.1, p.2))

end RelayUtils

namespace RelayModel

open RelayUtils

/-! ### Response collection (broker and gate read loops) -/

/-- The broker's read loop, `ArduinoRelayDaemon._execute_command` lines
143-151: up to `fuel` (10) reads; a blank read stops collection; a line
containing one of the four marker substrings is kept and stops collection;
other lines are kept and reading continues. -/
def daemonCollect : Nat → List String → List String
  | 0, _ => []
  | _ + 1, [] => []
  | n + 1, l :: ls =>
    if l ≠ "" then
      if ["STATUS", "ERR", "OK", "RELAY-CTRL"].any (fun term => strContains l term) then
        [l]
      else
        l :: daemonCollect n ls
    else []

/-- The gate's read loop, `PersistentArduinoController.send_command` lines
138-146 of `arduino_relay_control.py`; textually the same algorithm as the
broker's. -/
def gateCollect : Nat → List String → List String
  | 0, _ => []
  | _ + 1, [] => []
  | n + 1, l :: ls =>
    if l ≠ "" then
      if ["STATUS", "ERR", "OK", "RELAY-CTRL"].any (fun term => strContains l term) then
        [l]
      else
        l :: gateCollect n ls
    else []

/-- A line is terminal when it contains one of the marker substrings
(spec §4.3, "Decoding"). -/
def isTerminalLine (l : String) : Bool :=
  strContains l "STATUS" || strContains l "ERR" || strContains l "OK" ||
    strContains l "RELAY-CTRL"

/-- Reference collection, written from the spec's words: keep lines until a
blank read (excluded) or a terminal line (included). -/
def specTakeLines : List String → List String
  | [] => []
  | l :: ls =>
    if l = "" then []
    else if isTerminalLine l then [l]
    else l :: specTakeLines ls

/-- Reference collection function of spec §4.3: collect at most 10 lines,
stopping at a blank read or at the first terminal line (kept). -/
def specCollect (stream : List String) : List String :=
  specTakeLines (stream.take 10)

/-- Raw response: the collected lines newline-joined, order preserved. -/
def joinLines (ls : List String) : String :=
  String.intercalate "\n" ls

/-! ### Broker (`ArduinoRelayDaemon`) execution model -/

/-- A JSON value as placed into the broker reply's `success` field.  The
source computes `success = response and "ERR" not in response`, which in
Python is the string `""` when `response` is empty and a bool otherwise. -/
inductive JVal where
  | b (v : Bool)
  | s (v : String)
deriving DecidableEq

/-- Python truthiness of a `JVal`. -/
def jTruthy : JVal → Bool
  | .b v => v
  | .s v => v ≠ ""

/-- `success = response and "ERR" not in response`
(`arduino_daemon.py` line 154). -/
def pySuccess (response : String) : JVal :=
  if response = "" then .s ""
  else .b (!strContains response "ERR")

/-- The broker's one-object reply: `{"success": ..., "response": ...}` or
`{"success": False, "error": ...}`. -/
inductive DaemonReply where
  | ok (success : JVal) (response : String)
  | err (msg : String)
deriving DecidableEq

/-- Broker-side mutable state relevant here: whether the serial handle is
open. -/
structure DaemonState where
  arduinoOpen : Bool
deriving DecidableEq

/-- Environment of one `_execute_command` call: either serial I/O succeeds
and the device produces `stream`, or some serial operation raises with
message `msg`. -/
inductive ExecEnv where
  | io (stream : List String)
  | raise (msg : String)

/-- `ArduinoRelayDaemon._execute_command` (lines 133-159).  Returns the
state after the call, the line written to the device (`none` when nothing
reached the port), and the structured reply.  No branch closes the serial
handle. -/
def execute_command (st : DaemonState) (cmd : String) (env : ExecEnv) :
    DaemonState × Option String × DaemonReply :=
  if cmd = "" then (st, none, .err "No command")
  else
    match env with
    | .raise m => (st, none, .err m)
    | .io stream =>
      let response := joinLines (daemonCollect 10 stream)
      (st, some (cmd ++ "\n"), .ok (pySuccess response) response)

/-- `ArduinoRelayDaemon._shutdown` (lines 161-173) closes the serial
handle; it is the only place the broker does so. -/
def daemonShutdown (_ : DaemonState) : DaemonState :=
  { arduinoOpen := false }

/-- What `client.recv` + `json.loads` + `request.get("command", "")`
yield for one request: no data, undecodable JSON, or a decoded object
whose `command` field is absent (`none`) or present. -/
inductive RecvData where
  | empty
  | badJson
  | json (command : Option String)

/-- Observable outcome of one worker: a reply object was written and the
connection closed, or the connection was closed with nothing written
(the `with client:`/`except` path). -/
inductive ClientOutcome where
  | sent (reply : DaemonReply)
  | closedNoReply
deriving DecidableEq

/-- `ArduinoRelayDaemon._handle_client` (lines 122-131).  A `json.loads`
failure is caught by the blanket `except` after the `with client:` block
already closed the socket, so nothing is written back; a decoded request
reaches `_execute_command` with `request.get("command", "")`. -/
def handle_client (st : DaemonState) (d : RecvData) (env : ExecEnv) :
    DaemonState × ClientOutcome :=
  match d with
  | .empty => (st, .closedNoReply)
  | .badJson => (st, .closedNoReply)
  | .json c =>
    let r := execute_command st (c.getD "") env
    (r.1, .sent r.2.2)

/-! ### PID-file liveness (`_is_already_running` / `start`) -/

/-- The PID file's state: absent, present but unreadable as a decimal
number, or recording `p`. -/
inductive PidFile where
  | absent
  | garbage
  | pid (p : Nat)
deriving DecidableEq

/-- `ArduinoRelayDaemon._is_already_running` (lines 175-185).  Returns the
PID file's state after the call and the boolean result: a missing file is
`False`; an unreadable file or a recorded PID whose `os.kill(pid, 0)`
probe raises is unlinked and `False`; a live recorded PID is `True`. -/
def is_already_running (f : PidFile) (alive : Nat → Bool) : PidFile × Bool :=
  match f with
  | .absent => (.absent, false)
  | .garbage => (.absent, false)
  | .pid p => if alive p then (.pid p, true) else (.absent, false)

/-- Result of `ArduinoRelayDaemon.start` up to entering the main loop. -/
inductive StartResult where
  | alreadyRunning
  | connectFailed
  | socketFailed
  | started
deriving DecidableEq

/-- `ArduinoRelayDaemon.start` (lines 36-62): refuse when
`_is_already_running`, else connect the device, bind the socket, and
persist the daemon's own PID. -/
def daemon_start (f : PidFile) (alive : Nat → Bool)
    (connectOk socketOk : Bool) (ownPid : Nat) : StartResult × PidFile :=
  let r := is_already_running f alive
  if r.2 then (.alreadyRunning, r.1)
  else if !connectOk then (.connectFailed, r.1)
  else if !socketOk then (.socketFailed, r.1)
  else (.started, .pid ownPid)

/-! ### Gate (`PersistentArduinoController`) state machine -/

/-- The process-local state of the gate: whether `_connection` is an open
serial handle and whether the advisory `flock` is currently held. -/
structure GateSt where
  connOpen : Bool
  lockHeld : Bool
deriving DecidableEq

/-- What happens inside one `get_connection` attempt that has no cached
connection to reuse.  The `try` block's `except (IOError, OSError)` branch
returns `None` without any cleanup, so it matters where the `OSError` was
raised: before the `flock` (a peer holds it), after the `flock` but while
opening the port, or after the port opened while writing/reading the `ID`
handshake. -/
inductive ConnAttempt where
  | lockBusy
  | openRaises
  | handshakeRaises
  | mismatch
  | ok

/-- Device behaviour during one command: a reply stream, or a raised
serial exception. -/
inductive DevStep where
  | reply (stream : List String)
  | raise (msg : String)

/-- `PersistentArduinoController._cleanup` (lines 160-175): close and drop
the connection, unlock and drop the lock file. -/
def gate_cleanup (_ : GateSt) : GateSt :=
  { connOpen := false, lockHeld := false }

/-- `PersistentArduinoController.get_connection` (lines 71-119): reuse an
open connection; otherwise open the lock file and `flock` it.  A busy lock
raises into the `except (IOError, OSError)` branch, which returns `None`
with the state untouched.  An `OSError` from `serial.Serial` lands in the
same branch but only after the `flock` succeeded — the lock stays held
with no connection; an `OSError` from the handshake write/read likewise,
but with the freshly opened connection already cached in `_connection`.  A
handshake reply without `RELAY-CTRL` raises a plain `Exception`, which
runs `_cleanup`.  The second component tells whether a connection was
returned to the caller. -/
def get_connection (st : GateSt) (a : ConnAttempt) : GateSt × Bool :=
  if st.connOpen then (st, true)
  else
    match a with
    | .lockBusy => (st, false)
    | .openRaises => ({ connOpen := false, lockHeld := true }, false)
    | .handshakeRaises => ({ connOpen := true, lockHeld := true }, false)
    | .mismatch => (gate_cleanup st, false)
    | .ok => ({ connOpen := true, lockHeld := true }, true)

/-- One iteration of the retry loop in
`PersistentArduinoController.send_command` (lines 125-156): obtain a
connection (else yield nothing), write the command, read with the gate's
collection loop; a raised exception runs `_cleanup` and yields nothing. -/
def send_attempt (st : GateSt) (a : ConnAttempt) (dev : DevStep) :
    GateSt × Option String :=
  let r := get_connection st a
  if r.2 then
    match dev with
    | .reply stream => (r.1, some (joinLines (gateCollect 10 stream)))
    | .raise _ => (gate_cleanup r.1, none)
  else (r.1, none)

/-- `PersistentArduinoController.send_command` (lines 121-158):
`max_retries = 3` attempts, each with its own environment and device
behaviour; the first attempt that returns a response ends the call, and
three fruitless attempts yield `None`. -/
def gate_send_command (st : GateSt) (e1 e2 e3 : ConnAttempt × DevStep) :
    GateSt × Option String :=
  match send_attempt st e1.1 e1.2 with
  | (st1, some r) => (st1, some r)
  | (st1, none) =>
    match send_attempt st1 e2.1 e2.2 with
    | (st2, some r) => (st2, some r)
    | (st2, none) =>
      match send_attempt st2 e3.1 e3.2 with
      | (st3, some r) => (st3, some r)
      | (st3, none) => (st3, none)

/-! ### Direct-path controller (`ArduinoRelayController`) -/

/-- `ArduinoRelayController._is_success_response` (lines 320-327): false on
`None` or empty; otherwise true iff the response contains one of `STATUS`,
`OK`, `RELAY-CTRL` and does not contain `ERR`. -/
def is_success_response : Option String → Bool
  | none => false
  | some r =>
    if r = "" then false
    else
      (strContains r "STATUS" || strContains r "OK" || strContains r "RELAY-CTRL")
        && !strContains r "ERR"

/-- The spec's canonical (permissive) success predicate (§4.3): the
response is non-empty and does not contain `ERR`. -/
def specSuccess (r : String) : Bool :=
  if r = "" then false else !strContains r "ERR"

/-- `ArduinoRelayController._validate_channel` (lines 268-270): raise
`ValueError` unless `0 <= channel <= 5`. -/
def validate_channel (c : Int) : Except String Unit :=
  if 0 ≤ c ∧ c ≤ 5 then .ok ()
  else .error ("Invalid channel " ++ toString c ++ ". Must be 0-5")

/-- The `for c in ch_list: self._validate_channel(int(c))` loop: the first
out-of-range element raises. -/
def validateList : List Int → Except String Unit
  | [] => .ok ()
  | c :: t =>
    match validate_channel c with
    | .error e => .error e
    | .ok _ => validateList t

/-- `ArduinoRelayController._validate_channels` (lines 272-278): an empty
collection raises `ValueError`, then every element is range-checked. -/
def validate_channels (cs : List Int) : Except String (List Int) :=
  if cs = [] then .error "No channels provided"
  else
    match validateList cs with
    | .error e => .error e
    | .ok _ => .ok cs

/-- Space-joined channel operands, Python's `" ".join(map(str, ch))`. -/
def joinChannels (cs : List Int) : String :=
  String.intercalate " " (cs.map toString)

/-- `ArduinoRelayController.relays_on` (lines 216-219): validate, then hand
the single `ON …` line to `_exec_and_ok`.  `Except.ok` carries the command
line that is sent; `Except.error` is the `ValueError` raised before
anything reaches the device. -/
def relays_on (cs : List Int) : Except String String :=
  match validate_channels cs with
  | .error e => .error e
  | .ok ch => .ok ("ON " ++ joinChannels ch)

/-- `ArduinoRelayController.relays_off` (lines 221-224). -/
def relays_off (cs : List Int) : Except String String :=
  match validate_channels cs with
  | .error e => .error e
  | .ok ch => .ok ("OFF " ++ joinChannels ch)

/-- `ArduinoRelayController.relays_toggle` (lines 226-229). -/
def relays_toggle (cs : List Int) : Except String String :=
  match validate_channels cs with
  | .error e => .error e
  | .ok ch => .ok ("TOGGLE " ++ joinChannels ch)

/-- `ArduinoRelayController.pulse` (lines 231-236): validate the channel,
then raise `ValueError` unless `1 <= milliseconds <= 60000`, else send the
`PULSE` line. -/
def pulse (channel milliseconds : Int) : Except String String :=
  match validate_channel channel with
  | .error e => .error e
  | .ok _ =>
    if 1 ≤ milliseconds ∧ milliseconds ≤ 60000 then
      .ok ("PULSE " ++ toString channel ++ " " ++ toString milliseconds)
    else .error "Invalid milliseconds. Must be 1..60000"

/-- `_execute_via_daemon` for `action == 'pulse'` (lines 501-502): the
command line is built with no range check on the milliseconds and handed
to `DaemonClient.send_command`. -/
def daemonPulseCmd (channel milliseconds : Int) : String :=
  "PULSE " ++ toString channel ++ " " ++ toString milliseconds

/-! ### Status parsing (`_parse_status_response`) -/

/-- Python `response.splitlines()` as it behaves on the newline-joined
responses occurring here (a possible trailing empty piece is inert for the
`startswith` search below). -/
def pyLines (s : String) : List String :=
  (splitOnChar '\n' s.toList).map String.mk

/-- The `for line in response.splitlines(): if line.startswith("STATUS")`
search (lines 334-338). -/
def findStatusLine (lines : List String) : Option String :=
  lines.find? (fun l => pyStartsWith l "STATUS")

/-- CPython dict assignment `channels[ch] = v` on an insertion-ordered
association list: replace in place when the key exists, append otherwise. -/
def updAssoc (m : List (Int × Bool)) (k : Int) (v : Bool) : List (Int × Bool) :=
  if m.any (fun q => q.1 = k) then
    m.map (fun q => if q.1 = k then (k, v) else q)
  else m ++ [(k, v)]

/-- One token of the `STATUS` line (lines 342-349): a token without a
colon, or one whose index part is not an `int`, is skipped; otherwise
channel `int(idx)` is set to `val.upper() == 'ON'`. -/
def tokenUpdate (m : List (Int × Bool)) (tok : String) : List (Int × Bool) :=
  match splitFirstColon tok.toList with
  | none => m
  | some p =>
    match pyInt (String.mk p.1) with
    | none => m
    | some ch => updAssoc m ch (pyUpper (String.mk p.2) = "ON")

/-- The channel map computed by
`ArduinoRelayController._parse_status_response` (lines 329-355): find the
first `STATUS` line, drop the first whitespace token, fold the rest.  The
function is total — the Python body catches its only `ValueError` — and
yields `{}` when no `STATUS` line exists. -/
def parse_status_channels (response : String) : List (Int × Bool) :=
  match findStatusLine (pyLines response) with
  | none => []
  | some line => ((pySplitWs line).drop 1).foldl tokenUpdate []

/-- Status-token handling written from the spec's words (§4.3): only a
token of the exact form `<index>:<ON|OFF>` updates the mapping; every
other token is skipped. -/
def specTokenUpdate (m : List (Int × Bool)) (tok : String) : List (Int × Bool) :=
  match splitFirstColon tok.toList with
  | none => m
  | some p =>
    match pyInt (String.mk p.1) with
    | none => m
    | some ch =>
      if String.mk p.2 = "ON" then updAssoc m ch true
      else if String.mk p.2 = "OFF" then updAssoc m ch false
      else m

/-- Spec-side status parsing (§4.3), same line search and tokenization but
with the strict token form. -/
def spec_status_channels (response : String) : List (Int × Bool) :=
  match findStatusLine (pyLines response) with
  | none => []
  | some line => ((pySplitWs line).drop 1).foldl specTokenUpdate []

end RelayModel

namespace RelayProofs

open RelayUtils RelayModel

/-- The inline marker test of both read loops agrees with `isTerminalLine`. -/
theorem any_term_eq_isTerminalLine (l : String) :
    (["STATUS", "ERR", "OK", "RELAY-CTRL"].any (fun term => strContains l term))
      = isTerminalLine l := by
  simp [List.any, isTerminalLine, Bool.or_assoc]

/-- The broker's loop computes the reference collection at any fuel. -/
theorem daemonCollect_eq_specTakeLines (n : Nat) (s : List String) :
    daemonCollect n s = specTakeLines (s.take n) := by
  induction n generalizing s with
  | zero => cases s <;> rfl
  | succ n ih =>
    cases s with
    | nil => rfl
    | cons l ls =>
      simp only [daemonCollect, List.take, specTakeLines, any_term_eq_isTerminalLine]
      by_cases h : l = "" <;> simp [h, ih]

/-- The gate's loop computes the reference collection at any fuel. -/
theorem gateCollect_eq_specTakeLines (n : Nat) (s : List String) :
    gateCollect n s = specTakeLines (s.take n) := by
  induction n generalizing s with
  | zero => cases s <;> rfl
  | succ n ih =>
    cases s with
    | nil => rfl
    | cons l ls =>
      simp only [gateCollect, List.take, specTakeLines, any_term_eq_isTerminalLine]
      by_cases h : l = "" <;> simp [h, ih]

/-- Claim C4: for every device reply stream, the broker's read loop and the
gate's read loop collect exactly the same lines, both equal to the
reference collection function of the spec (cap 10, stop at a blank read,
stop at and keep the first terminal line), and hence the newline-joined
raw responses coincide. -/
theorem C4_read_refinement (stream : List String) :
    daemonCollect 10 stream = gateCollect 10 stream ∧
    daemonCollect 10 stream = specCollect stream ∧
    joinLines (daemonCollect 10 stream) = joinLines (gateCollect 10 stream) := by
  have hd := daemonCollect_eq_specTakeLines 10 stream
  have hg := gateCollect_eq_specTakeLines 10 stream
  exact ⟨hd.trans hg.symm, hd, by rw [hd, hg]⟩

/-- Claim C1, counterexample: the response `HELLO` is non-empty and free of
`ERR`, so the spec's canonical (permissive) predicate classifies it as a
success — and so does the broker (`success = response and "ERR" not in
response` is truthy) — but the direct path's
`ArduinoRelayController._is_success_response` classifies it as a failure,
because it additionally demands a `STATUS`/`OK`/`RELAY-CTRL` marker.  The
two execution paths therefore do not share the claimed classification. -/
theorem C1_counterexample :
    specSuccess "HELLO" = true ∧
    jTruthy (pySuccess "HELLO") = true ∧
    is_success_response (some "HELLO") = false := by
  refine ⟨rfl, rfl, rfl⟩

/-- Claim C1, amended: the broker's classification (the truthiness of
`response and "ERR" not in response`) is exactly the permissive predicate
— non-empty and no `ERR` — while the direct path's
`_is_success_response` is the stricter predicate: permissive AND one of
the `STATUS`/`OK`/`RELAY-CTRL` markers present. -/
theorem C1_amended (r : String) :
    jTruthy (pySuccess r) = specSuccess r ∧
    is_success_response (some r)
      = (specSuccess r
          && (strContains r "STATUS" || strContains r "OK" || strContains r "RELAY-CTRL")) := by
  by_cases h : r = ""
  · subst h
    exact ⟨rfl, rfl⟩
  · constructor
    · simp [jTruthy, pySuccess, specSuccess, h]
    · simp [is_success_response, specSuccess, h, Bool.and_comm]

/-- Claim C3, counterexample: a malformed (non-JSON) request makes
`json.loads` raise inside `_handle_client`; the blanket `except` catches it
after the `with client:` block has closed the socket, so the connection is
closed with **no** structured failure response written to the client,
contrary to the claim. -/
theorem C3_counterexample :
    (handle_client ⟨true⟩ RecvData.badJson (ExecEnv.io [])).2
      = ClientOutcome.closedNoReply := rfl

/-- Claim C3, amended: a malformed payload never produces a reply — the
per-request exception is caught and the connection simply closed — while a
well-formed request whose `command` field is missing (or empty) does get
the structured failure `{"success": false, "error": "No command"}`; in
every case the worker either writes one reply or silently closes, so no
per-request fault escapes the handler. -/
theorem C3_amended (st : DaemonState) (env : ExecEnv) :
    (handle_client st RecvData.badJson env).2 = ClientOutcome.closedNoReply ∧
    (handle_client st (RecvData.json none) env).2
      = ClientOutcome.sent (DaemonReply.err "No command") ∧
    (handle_client st (RecvData.json (some "")) env).2
      = ClientOutcome.sent (DaemonReply.err "No command") ∧
    ∀ d : RecvData,
      (handle_client st d env).2 = ClientOutcome.closedNoReply ∨
        ∃ rep, (handle_client st d env).2 = ClientOutcome.sent rep := by
  refine ⟨rfl, rfl, rfl, ?_⟩
  intro d
  cases d with
  | empty => exact Or.inl rfl
  | badJson => exact Or.inl rfl
  | json c => exact Or.inr ⟨_, rfl⟩

/-- Claim C6, counterexample: the token `2:MAYBE` is not of the form
`<index>:<ON|OFF>`, so by the claim it should be skipped (as the
spec-faithful parser does), but `_parse_status_response` records channel 2
as OFF, since it stores `val.upper() == 'ON'` for any integer-indexed
token. -/
theorem C6_counterexample :
    parse_status_channels "STATUS 2:MAYBE" = [((2 : Int), false)] ∧
    spec_status_channels "STATUS 2:MAYBE" = [] := by
  exact ⟨rfl, rfl⟩

/-- Claim C6, amended: status parsing finds the first line starting with
`STATUS` (no such line yields the empty map), tokenizes the remainder on
whitespace, and updates the channel map for every token `<index>:<text>`
with an integer index, recording `true` exactly when `text` uppercases to
`ON` — so a malformed value such as `MAYBE` is recorded as OFF rather than
skipped, while tokens without a colon or with a non-integer index are
skipped; the function is total (never raises), and the stub reply parses
to the claimed map. -/
theorem C6_amended (resp : String)
    (h : findStatusLine (pyLines resp) = none) :
    parse_status_channels resp = [] ∧
    parse_status_channels "STATUS 0:ON 1:ON 2:OFF 3:ON 4:OFF 5:OFF"
      = [((0 : Int), true), (1, true), (2, false), (3, true), (4, false), (5, false)] ∧
    parse_status_channels "STATUS x:ON 3:ON zz 4:OFF" = [((3 : Int), true), (4, false)] ∧
    parse_status_channels "STATUS 2:MAYBE" = [((2 : Int), false)] := by
  refine ⟨?_, rfl, rfl, rfl⟩
  unfold parse_status_channels
  rw [h]

/-- Claim C6, witness: the reply `OK` has no `STATUS` line, and the
amended theorem applies to it. -/
theorem C6_amended_witness :
    findStatusLine (pyLines "OK") = none ∧
    (parse_status_channels "OK" = [] ∧
      parse_status_channels "STATUS 0:ON 1:ON 2:OFF 3:ON 4:OFF 5:OFF"
        = [((0 : Int), true), (1, true), (2, false), (3, true), (4, false), (5, false)] ∧
      parse_status_channels "STATUS x:ON 3:ON zz 4:OFF" = [((3 : Int), true), (4, false)] ∧
      parse_status_channels "STATUS 2:MAYBE" = [((2 : Int), false)]) :=
  ⟨rfl, C6_amended "OK" rfl⟩

/-- One gate attempt preserves the invariant that an open cached connection
implies the advisory lock is held. -/
theorem send_attempt_inv (st : GateSt) (a : ConnAttempt) (dev : DevStep)
    (h : st.connOpen = true → st.lockHeld = true) :
    (send_attempt st a dev).1.connOpen = true →
      (send_attempt st a dev).1.lockHeld = true := by
  rcases st with ⟨co, lh⟩
  cases dev <;> cases a <;> cases co <;>
    simp_all [send_attempt, get_connection, gate_cleanup]

/-- Claim C2, counterexample: starting with no cached connection, one
successful `send_command` (lock obtainable, handshake fine, the device
replying `OK`) ends with the advisory lock still held — the next
`send_command` of the same process begins with `lockHeld = true`, so the
lock acquired for one command is not released before the next command
begins. -/
theorem C2_counterexample :
    gate_send_command ⟨false, false⟩
        (ConnAttempt.ok, DevStep.reply ["OK"])
        (ConnAttempt.ok, DevStep.reply ["OK"])
        (ConnAttempt.ok, DevStep.reply ["OK"])
      = (⟨true, true⟩, some "OK") := rfl

/-- Claim C2, amended: the gate does not release the advisory lock per
command — the lock lives with the cached connection.  Whenever the cached
connection is open the lock is held (an invariant of `send_command`, a
release happening only in `_cleanup` after an I/O failure, or when the
serial open after a won `flock` fails), and a command served over an open
cached connection leaves the state — lock included — untouched, so the
lock spans successive commands of the resident process. -/
theorem C2_amended (st : GateSt) (e1 e2 e3 : ConnAttempt × DevStep)
    (h : st.connOpen = true → st.lockHeld = true) :
    ((gate_send_command st e1 e2 e3).1.connOpen = true →
      (gate_send_command st e1 e2 e3).1.lockHeld = true) ∧
    (∀ a stream, send_attempt ⟨true, true⟩ a (DevStep.reply stream)
        = (⟨true, true⟩, some (joinLines (gateCollect 10 stream)))) := by
  refine ⟨?_, fun a stream => rfl⟩
  unfold gate_send_command
  split
  · rename_i st1 r heq
    have h1 := send_attempt_inv st e1.1 e1.2 h
    rw [heq] at h1
    exact h1
  · rename_i st1 heq
    have h1 := send_attempt_inv st e1.1 e1.2 h
    rw [heq] at h1
    split
    · rename_i st2 r heq2
      have h2 := send_attempt_inv st1 e2.1 e2.2 h1
      rw [heq2] at h2
      exact h2
    · rename_i st2 heq2
      have h2 := send_attempt_inv st1 e2.1 e2.2 h1
      rw [heq2] at h2
      split
      · rename_i st3 r heq3
        have h3 := send_attempt_inv st2 e3.1 e3.2 h2
        rw [heq3] at h3
        exact h3
      · rename_i st3 heq3
        have h3 := send_attempt_inv st2 e3.1 e3.2 h2
        rw [heq3] at h3
        exact h3

/-- Claim C2, witness: the amended invariant applied to the fresh state and
three concrete successful attempts. -/
theorem C2_amended_witness :
    ((GateSt.mk false false).connOpen = true → (GateSt.mk false false).lockHeld = true) ∧
    (((gate_send_command ⟨false, false⟩
          (ConnAttempt.ok, DevStep.reply ["OK"])
          (ConnAttempt.ok, DevStep.reply ["OK"])
          (ConnAttempt.ok, DevStep.reply ["OK"])).1.connOpen = true →
        (gate_send_command ⟨false, false⟩
          (ConnAttempt.ok, DevStep.reply ["OK"])
          (ConnAttempt.ok, DevStep.reply ["OK"])
          (ConnAttempt.ok, DevStep.reply ["OK"])).1.lockHeld = true) ∧
      (∀ a stream, send_attempt ⟨true, true⟩ a (DevStep.reply stream)
          = (⟨true, true⟩, some (joinLines (gateCollect 10 stream))))) :=
  ⟨by decide, C2_amended ⟨false, false⟩
      (ConnAttempt.ok, DevStep.reply ["OK"])
      (ConnAttempt.ok, DevStep.reply ["OK"])
      (ConnAttempt.ok, DevStep.reply ["OK"]) (by decide)⟩

/-- A `PULSE` command line is never the empty string. -/
theorem daemonPulseCmd_ne_empty (ch ms : Int) : daemonPulseCmd ch ms ≠ "" := by
  intro h
  have h2 : (daemonPulseCmd ch ms).length = 0 := by rw [h]; rfl
  unfold daemonPulseCmd at h2
  rw [String.length_append, String.length_append, String.length_append] at h2
  have hp : ("PULSE " : String).length = 6 := rfl
  have hs : (" " : String).length = 1 := rfl
  rw [hp, hs] at h2
  omega

/-- Claim C5, counterexample: with `ms = 0` the direct path raises
`ValueError` and sends nothing, but the daemon-routed path builds
`PULSE 0 0` with no range check and the broker writes that line (plus the
newline) to the device — bytes do reach the device for `ms = 0`. -/
theorem C5_counterexample :
    pulse 0 0 = Except.error "Invalid milliseconds. Must be 1..60000" ∧
    daemonPulseCmd 0 0 = "PULSE 0 0" ∧
    (execute_command ⟨true⟩ (daemonPulseCmd 0 0) (ExecEnv.io ["OK"])).2.1
      = some "PULSE 0 0\n" := by
  exact ⟨rfl, rfl, rfl⟩

/-- Claim C5, amended: on the direct path, `pulse` sends the `PULSE`
command for every `ms ∈ [1, 60000]` and fails validation — with nothing
sent — for `ms = 0` or `ms = 60001`; the daemon-routed path, however,
performs no millisecond validation and the broker writes the `PULSE` line
to the device for every `ms`. -/
theorem C5_amended (ch ms : Int) (hch0 : 0 ≤ ch) (hch5 : ch ≤ 5) :
    ((1 ≤ ms ∧ ms ≤ 60000) → pulse ch ms = Except.ok (daemonPulseCmd ch ms)) ∧
    ((ms = 0 ∨ ms = 60001) →
      pulse ch ms = Except.error "Invalid milliseconds. Must be 1..60000") ∧
    (∀ st stream, (execute_command st (daemonPulseCmd ch ms) (ExecEnv.io stream)).2.1
      = some (daemonPulseCmd ch ms ++ "\n")) := by
  refine ⟨?_, ?_, ?_⟩
  · intro hms
    unfold pulse validate_channel
    rw [if_pos ⟨hch0, hch5⟩]
    simp only [if_pos hms]
    rfl
  · intro hms
    unfold pulse validate_channel
    rw [if_pos ⟨hch0, hch5⟩]
    have : ¬(1 ≤ ms ∧ ms ≤ 60000) := by rcases hms with rfl | rfl <;> omega
    simp only [if_neg this]
  · intro st stream
    unfold execute_command
    rw [if_neg (daemonPulseCmd_ne_empty ch ms)]

/-- Claim C5, witness: the amended theorem at channel 1, applied to
`ms = 500`. -/
theorem C5_amended_witness :
    (0 ≤ (1 : Int) ∧ (1 : Int) ≤ 5) ∧
    (((1 ≤ (500 : Int) ∧ (500 : Int) ≤ 60000) →
        pulse 1 500 = Except.ok (daemonPulseCmd 1 500)) ∧
      (((500 : Int) = 0 ∨ (500 : Int) = 60001) →
        pulse 1 500 = Except.error "Invalid milliseconds. Must be 1..60000") ∧
      (∀ st stream, (execute_command st (daemonPulseCmd 1 500) (ExecEnv.io stream)).2.1
        = some (daemonPulseCmd 1 500 ++ "\n"))) :=
  ⟨⟨by decide, by decide⟩, C5_amended 1 500 (by decide) (by decide)⟩

/-- Claim C7, counterexample: when every read is empty the collected
response is the empty string, and the broker computes
`success = response and "ERR" not in response`, which in Python is the
empty **string**, not a boolean — the reply is
`{"success": "", "response": ""}`. -/
theorem C7_counterexample :
    (execute_command ⟨true⟩ "STATUS" (ExecEnv.io [])).2.2
      = DaemonReply.ok (JVal.s "") "" ∧
    JVal.s "" ≠ JVal.b false ∧ JVal.s "" ≠ JVal.b true := by
  refine ⟨rfl, by decide, by decide⟩

/-- Claim C7, amended: every broker reply is `{"success": ..., "response":
...}` or `{"success": false, "error": ...}`, and the `success` field is a
boolean whenever the device response is non-empty; for an empty response
it degenerates to the empty string (still falsy in Python), not a
boolean. -/
theorem C7_amended (st : DaemonState) (cmd : String) (env : ExecEnv) :
    (∃ m, (execute_command st cmd env).2.2 = DaemonReply.err m) ∨
    (∃ b r, (execute_command st cmd env).2.2 = DaemonReply.ok (JVal.b b) r ∧ r ≠ "") ∨
    (execute_command st cmd env).2.2 = DaemonReply.ok (JVal.s "") "" := by
  unfold execute_command
  by_cases hc : cmd = ""
  · exact Or.inl ⟨"No command", by simp [hc]⟩
  · cases env with
    | raise m => exact Or.inl ⟨m, by simp [hc]⟩
    | io stream =>
      by_cases hr : joinLines (daemonCollect 10 stream) = ""
      · right; right
        simp [hc, hr, pySuccess]
      · right; left
        exact ⟨!strContains (joinLines (daemonCollect 10 stream)) "ERR", _,
          by simp [hc, pySuccess, hr], hr⟩

/-- Claim C8: broker startup ends in `AlreadyRunning` exactly when the PID
file records a PID for which the liveness probe succeeds; in every other
situation (absent, unreadable, or dead PID) the check leaves no PID file
behind — a stale file is unlinked — and startup proceeds past the check. -/
theorem C8_pidfile_liveness (f : PidFile) (alive : Nat → Bool)
    (connectOk socketOk : Bool) (ownPid : Nat) :
    ((daemon_start f alive connectOk socketOk ownPid).1 = StartResult.alreadyRunning
      ↔ ∃ p, f = PidFile.pid p ∧ alive p = true) ∧
    ((is_already_running f alive).1
      = if (is_already_running f alive).2 = true then f else PidFile.absent) := by
  constructor
  · cases f with
    | absent =>
      cases connectOk <;> cases socketOk <;>
        simp [daemon_start, is_already_running]
    | garbage =>
      cases connectOk <;> cases socketOk <;>
        simp [daemon_start, is_already_running]
    | pid p =>
      cases hA : alive p <;> cases connectOk <;> cases socketOk <;>
        simp [daemon_start, is_already_running, hA]
  · cases f with
    | absent => rfl
    | garbage => rfl
    | pid p => cases hA : alive p <;> simp [is_already_running, hA]

/-- Claim C9: an I/O exception raised while executing a command yields the
structured failure `{"success": false, "error": <message>}`, nothing having
reached the device, and the broker's serial-connection state is exactly
what it was — `_execute_command` closes nothing on this path, leaving the
link available for the next command. -/
theorem C9_io_failure_frame (st : DaemonState) (cmd m : String) (h : cmd ≠ "") :
    execute_command st cmd (ExecEnv.raise m) = (st, none, DaemonReply.err m) ∧
    (execute_command st cmd (ExecEnv.raise m)).1.arduinoOpen = st.arduinoOpen := by
  constructor
  · unfold execute_command
    rw [if_neg h]
  · unfold execute_command
    rw [if_neg h]

/-- Claim C9, witness: the frame property applied to an open connection,
the `STATUS` command and the message `boom`. -/
theorem C9_io_failure_frame_witness :
    ("STATUS" : String) ≠ "" ∧
    (execute_command ⟨true⟩ "STATUS" (ExecEnv.raise "boom")
        = (⟨true⟩, none, DaemonReply.err "boom") ∧
      (execute_command ⟨true⟩ "STATUS" (ExecEnv.raise "boom")).1.arduinoOpen
        = DaemonState.arduinoOpen ⟨true⟩) :=
  ⟨by decide, C9_io_failure_frame ⟨true⟩ "STATUS" "boom" (by decide)⟩

/-- A channel collection containing an out-of-range element makes the
validation loop raise. -/
theorem validateList_err (cs : List Int) (h : ∃ c ∈ cs, ¬(0 ≤ c ∧ c ≤ 5)) :
    ∃ e, validateList cs = Except.error e := by
  induction cs with
  | nil =>
    rcases h with ⟨c, hc, _⟩
    cases hc
  | cons a t ih =>
    rcases h with ⟨c, hc, hbad⟩
    rcases List.mem_cons.mp hc with rfl | hct
    · refine ⟨"Invalid channel " ++ toString c ++ ". Must be 0-5", ?_⟩
      unfold validateList validate_channel
      rw [if_neg hbad]
    · by_cases hA : 0 ≤ a ∧ a ≤ 5
      · obtain ⟨e, he⟩ := ih ⟨c, hct, hbad⟩
        refine ⟨e, ?_⟩
        unfold validateList validate_channel
        rw [if_pos hA]
        exact he
      · refine ⟨"Invalid channel " ++ toString a ++ ". Must be 0-5", ?_⟩
        unfold validateList validate_channel
        rw [if_neg hA]

/-- `_validate_channels` raises on an empty collection and on any
out-of-range element. -/
theorem validate_channels_err (cs : List Int)
    (h : cs = [] ∨ ∃ c ∈ cs, ¬(0 ≤ c ∧ c ≤ 5)) :
    ∃ e, validate_channels cs = Except.error e := by
  by_cases hnil : cs = []
  · exact ⟨"No channels provided", by simp [validate_channels, hnil]⟩
  · rcases h with rfl | h
    · exact absurd rfl hnil
    · obtain ⟨e, he⟩ := validateList_err cs h
      refine ⟨e, ?_⟩
      unfold validate_channels
      rw [if_neg hnil, he]

/-- Claim C10: `relays_on`, `relays_off` and `relays_toggle` raise
`ValueError` — with no command line ever produced for the device — for an
empty channel collection and for any collection containing a value outside
`[0, 5]`. -/
theorem C10_multichannel_validation (cs : List Int)
    (h : cs = [] ∨ ∃ c ∈ cs, ¬(0 ≤ c ∧ c ≤ 5)) :
    (∃ e, relays_on cs = Except.error e) ∧
    (∃ e, relays_off cs = Except.error e) ∧
    (∃ e, relays_toggle cs = Except.error e) := by
  obtain ⟨e, he⟩ := validate_channels_err cs h
  refine ⟨⟨e, ?_⟩, ⟨e, ?_⟩, ⟨e, ?_⟩⟩
  · unfold relays_on
    rw [he]
  · unfold relays_off
    rw [he]
  · unfold relays_toggle
    rw [he]

/-- Claim C10, witness: the collection `[7]` is non-empty but contains the
out-of-range channel 7, and all three operations reject it. -/
theorem C10_multichannel_validation_witness :
    (([(7 : Int)] = ([] : List Int)) ∨ ∃ c ∈ [(7 : Int)], ¬(0 ≤ c ∧ c ≤ 5)) ∧
    ((∃ e, relays_on [(7 : Int)] = Except.error e) ∧
      (∃ e, relays_off [(7 : Int)] = Except.error e) ∧
      (∃ e, relays_toggle [(7 : Int)] = Except.error e)) :=
  ⟨Or.inr ⟨7, by decide, by decide⟩,
    C10_multichannel_validation [(7 : Int)] (Or.inr ⟨7, by decide, by decide⟩)⟩

end RelayProofs
